import Mathlib

/-!
# Order-detail page: rating and review submission

A shallow embedding of `urbanfoods/static/js/order_detail.js`.

* JavaScript strings are Lean `String`s, processed through their character lists.
* The DOM the script touches is explicit state (`Page`); `alert`, `console.error`,
  `fetch` and the modal's `show`/`hide` are logged in that state.
* Each `async` submit handler is split at its first network `await`: a synchronous
  start phase that may issue a request, and a finish phase that consumes the
  outcome of that request. A call of `fetch` is what counts as a network call.
* A form is the list of its descendant elements in document order; review rows are not
  nested. An attribute selector `[name="..."]` built from a row id is read as equality with
  the `name` attribute, which is what it means for ids that need no CSS escaping.
* `parseInt` keeps the exact integer; `JSON.stringify` and `FormData` are kept as the
  structured values handed to them.
-/

namespace OrderDetail

/-! ## Platform string primitives used by the script -/

/-- White space and line terminators of ECMAScript (`StrWhiteSpaceChar`), the set that
`String.prototype.trim` and `parseInt` strip. -/
def isStrWhiteSpace (c : Char) : Bool :=
  c.toNat ∈ [0x09, 0x0A, 0x0B, 0x0C, 0x0D, 0x20, 0xA0, 0x1680, 0x2028, 0x2029,
      0x202F, 0x205F, 0x3000, 0xFEFF]
    || (0x2000 ≤ c.toNat && c.toNat ≤ 0x200A)

/-- Characters of `s.trim()`. -/
def trimChars (l : List Char) : List Char :=
  ((l.dropWhile isStrWhiteSpace).reverse.dropWhile isStrWhiteSpace).reverse

/-- The method `String.prototype.trim`. -/
def trim (s : String) : String := ⟨trimChars s.data⟩

/-- Characters of the pieces of `s.split(sep)` for a one-character separator. -/
def splitChars (sep : Char) : List Char → List (List Char)
  | [] => [[]]
  | c :: cs =>
    if c = sep then [] :: splitChars sep cs
    else
      match splitChars sep cs with
      | [] => [[c]]
      | piece :: pieces => (c :: piece) :: pieces

/-- The pieces joined again with the separator between them, `pieces.join(sep)`. -/
def joinChars (sep : Char) : List (List Char) → List Char
  | [] => []
  | [piece] => piece
  | piece :: next :: pieces => piece ++ sep :: joinChars sep (next :: pieces)

/-- Value of a hexadecimal digit. -/
def hexVal (c : Char) : Option Nat :=
  if 48 ≤ c.toNat ∧ c.toNat ≤ 57 then some (c.toNat - 48)
  else if 97 ≤ c.toNat ∧ c.toNat ≤ 102 then some (c.toNat - 87)
  else if 65 ≤ c.toNat ∧ c.toNat ≤ 70 then some (c.toNat - 55)
  else none

/-- Exceptions the script can meet. -/
inductive JsError where
  | uriError
  | typeError
  deriving DecidableEq

instance instDecidableEqExcept {ε α : Type} [DecidableEq ε] [DecidableEq α] :
    DecidableEq (Except ε α)
  | .ok a, .ok b => if h : a = b then isTrue (by rw [h]) else isFalse (by intro h2; cases h2; exact h rfl)
  | .error a, .error b =>
    if h : a = b then isTrue (by rw [h]) else isFalse (by intro h2; cases h2; exact h rfl)
  | .ok _, .error _ => isFalse (by intro h; cases h)
  | .error _, .ok _ => isFalse (by intro h; cases h)

/-- A percent-encoded string read left to right: plain characters and `%XY` octets. -/
inductive UriToken where
  | lit (c : Char)
  | octet (b : Nat)
  deriving DecidableEq

/-- Reads the `%XY` escapes of a string; a `%` not followed by two hexadecimal digits is a
`URIError`. -/
def uriTokens : List Char → Except JsError (List UriToken)
  | [] => .ok []
  | c :: rest =>
    if c = '%' then
      match rest with
      | a :: b :: rest2 =>
        match hexVal a, hexVal b with
        | some x, some y =>
          match uriTokens rest2 with
          | .ok ts => .ok (.octet (16 * x + y) :: ts)
          | .error e => .error e
        | _, _ => .error .uriError
      | _ => .error .uriError
    else
      match uriTokens rest with
      | .ok ts => .ok (.lit c :: ts)
      | .error e => .error e

/-- Payload of a UTF-8 continuation octet `10xxxxxx`. -/
def contBits : UriToken → Option Nat
  | .octet b => if 0x80 ≤ b ∧ b < 0xC0 then some (b - 0x80) else none
  | .lit _ => none

/-- The code point `v` read from `len` octets, when that is its well-formed UTF-8 encoding
(shortest form, no surrogate, at most U+10FFFF). -/
def scalarOf (len v : Nat) : Option Char :=
  let lowest := if len = 2 then 0x80 else if len = 3 then 0x800 else 0x10000
  if lowest ≤ v ∧ v ≤ 0x10FFFF ∧ ¬ (0xD800 ≤ v ∧ v ≤ 0xDFFF) then some (Char.ofNat v) else none

/-- Decodes the octets of a tokenised string as UTF-8; an ill-formed sequence is a
`URIError`. -/
def utf8Chars : List UriToken → Except JsError (List Char)
  | [] => .ok []
  | .lit c :: rest =>
    match utf8Chars rest with
    | .ok cs => .ok (c :: cs)
    | .error e => .error e
  | .octet b :: rest =>
    if b < 0x80 then
      match utf8Chars rest with
      | .ok cs => .ok (Char.ofNat b :: cs)
      | .error e => .error e
    else if 0xC0 ≤ b ∧ b < 0xE0 then
      match rest with
      | t1 :: rest1 =>
        match (contBits t1).bind (fun x1 => scalarOf 2 ((b - 0xC0) * 64 + x1)) with
        | some ch =>
          match utf8Chars rest1 with
          | .ok cs => .ok (ch :: cs)
          | .error e => .error e
        | none => .error .uriError
      | _ => .error .uriError
    else if 0xE0 ≤ b ∧ b < 0xF0 then
      match rest with
      | t1 :: t2 :: rest2 =>
        match (contBits t1).bind (fun x1 => (contBits t2).bind (fun x2 =>
            scalarOf 3 ((b - 0xE0) * 4096 + x1 * 64 + x2))) with
        | some ch =>
          match utf8Chars rest2 with
          | .ok cs => .ok (ch :: cs)
          | .error e => .error e
        | none => .error .uriError
      | _ => .error .uriError
    else if 0xF0 ≤ b ∧ b < 0xF8 then
      match rest with
      | t1 :: t2 :: t3 :: rest3 =>
        match (contBits t1).bind (fun x1 => (contBits t2).bind (fun x2 =>
            (contBits t3).bind (fun x3 =>
              scalarOf 4 ((b - 0xF0) * 262144 + x1 * 4096 + x2 * 64 + x3)))) with
        | some ch =>
          match utf8Chars rest3 with
          | .ok cs => .ok (ch :: cs)
          | .error e => .error e
        | none => .error .uriError
      | _ => .error .uriError
    else .error .uriError

/-- The global `decodeURIComponent`: every `%XY` escape is replaced by the character its
UTF-8 octets encode; a malformed escape throws `URIError`. -/
def decodeURIComponent (s : List Char) : Except JsError String :=
  match uriTokens s with
  | .error e => .error e
  | .ok ts =>
    match utf8Chars ts with
    | .ok cs => .ok ⟨cs⟩
    | .error e => .error e

/-- Value of `c` as a digit in the given radix (10 or 16). -/
def digitVal (radix : Nat) (c : Char) : Option Nat :=
  match hexVal c with
  | some v => if v < radix then some v else none
  | none => none

/-- The global `parseInt` called with one argument: leading white space is skipped, a sign
and a `0x`/`0X` marker are read, then the longest run of digits; no digit gives `NaN`
(`none`). The integer is kept exact. -/
def parseInt (s : String) : Option Int :=
  let s1 := s.data.dropWhile isStrWhiteSpace
  let negative := s1.head? = some '-'
  let s2 := if s1.head? = some '-' ∨ s1.head? = some '+' then s1.tail else s1
  let hex := match s2 with
    | '0' :: 'x' :: _ => true
    | '0' :: 'X' :: _ => true
    | _ => false
  let radix := if hex then 16 else 10
  let s3 := if hex then s2.drop 2 else s2
  let digits := s3.takeWhile (fun c => (digitVal radix c).isSome)
  if digits = [] then none
  else
    let magnitude : Nat := digits.foldl (fun acc c => acc * radix + (digitVal radix c).getD 0) 0
    some (if negative then - (magnitude : Int) else (magnitude : Int))

/-! ## `getCookie` -/

/-- The `for (let cookie of cookies)` loop of `getCookie`: the first trimmed piece that
starts with `name=` is decoded and the loop breaks. -/
def getCookieLoop (name : String) : List (List Char) → Except JsError (Option String)
  | [] => .ok none
  | cookie :: cookies =>
    let cookie := trimChars cookie
    if (name.data ++ ['=']).isPrefixOf cookie then
      match decodeURIComponent (cookie.drop (name.length + 1)) with
      | .ok v => .ok (some v)
      | .error e => .error e
    else getCookieLoop name cookies

/-- The helper `getCookie(name)`, reading `document.cookie`; `none` is `null`. -/
def getCookie (documentCookie : String) (name : String) : Except JsError (Option String) :=
  if documentCookie ≠ "" then getCookieLoop name (splitChars ';' documentCookie.data)
  else .ok none

/-! ## JavaScript values, responses and requests -/

/-- The JavaScript values the handlers read from a response or pass to `alert`. Objects and
arrays are not inspected further; numbers are the integer-valued ones. -/
inductive JsVal where
  | undefined
  | null
  | bool (b : Bool)
  | num (n : Int)
  | str (s : String)
  | object
  deriving DecidableEq

/-- ECMAScript `ToBoolean`, as applied by `||` and `if`. -/
def JsVal.truthy : JsVal → Bool
  | .undefined => false
  | .null => false
  | .bool b => b
  | .num n => n != 0
  | .str s => s != ""
  | .object => true

/-- The expression `a || b`. -/
def JsVal.or (a b : JsVal) : JsVal := if a.truthy then a else b

/-- What `await response.json()` yields: a rejection when the body is not JSON, the value
`null`, or a value whose `success` and `message` properties can be read (`undefined` when
the value has no such property). -/
inductive JsonBody where
  | unparsable
  | null
  | props (success message : JsVal)
  deriving DecidableEq

/-- What `await fetch(...)` yields: a rejection, or a response with its `ok` flag and body. -/
inductive FetchOutcome where
  | rejected
  | response (ok : Bool) (body : JsonBody)
  deriving DecidableEq

/-- One element of the `reviews` array; `rating` is `none` for `NaN`, and `food_item_id` is
`none` when the row has no `data-food-item-id`. -/
structure ReviewEntry where
  food_item_id : Option String
  rating : Option Int
  comment : String
  deriving DecidableEq

/-- Body handed to `fetch`: the `FormData` fields in append order, or the array given to
`JSON.stringify`. -/
inductive RequestBody where
  | formData (fields : List (String × String))
  | json (reviews : List ReviewEntry)
  deriving DecidableEq

/-- One call of `fetch`. A header value of `none` is `null`. -/
structure Request where
  url : String
  method : String
  headers : List (String × Option String)
  body : RequestBody
  deriving DecidableEq

/-! ## The DOM the script reads and writes -/

/-- Element kinds told apart by the selectors of the script. -/
inductive Tag where
  | input
  | textarea
  | button
  | other
  deriving DecidableEq

/-- A form element: its `name` and `type` attributes, whether `:checked` matches it, its
`value` and its `disabled` property. -/
structure Control where
  tag : Tag
  name : Option String
  typeAttr : Option String
  checked : Bool
  value : String
  disabled : Bool
  deriving DecidableEq

/-- A `.food-review-item` row: its `dataset.foodItemId` and its descendant elements in
document order. -/
structure ReviewItem where
  foodItemId : Option String
  controls : List Control
  deriving DecidableEq

/-- A descendant of `#foodReviewForm` in document order: a review row, or an element
outside every row. -/
inductive FormNode where
  | control (c : Control)
  | item (r : ReviewItem)
  deriving DecidableEq

/-- The document when `DOMContentLoaded` fires. `ratingModalEl` is `#orderRatingModal` with
its `data-rated` attribute. -/
structure Document where
  cookie : String
  orderNumberEl : Option String
  ratingModalEl : Option (Option String)
  orderRatingForm : Option (List Control)
  foodReviewForm : Option (List FormNode)
  deriving DecidableEq

/-- The page after initialisation: the constants bound by the `DOMContentLoaded` callback
(`orderNumber`, whether `ratingModal` is non-null), the mutable DOM, and the log of effects. -/
structure Page where
  cookie : String
  orderNumber : Option String
  ratingModalEl : Option (Option String)
  ratingModal : Bool
  orderRatingForm : Option (List Control)
  foodReviewForm : Option (List FormNode)
  alerts : List JsVal
  fetches : List Request
  consoleErrors : List String
  modalShows : Nat
  modalHides : Nat
  deriving DecidableEq

/-- A value spliced into a template literal, with the text of the absent value. -/
def spliced (absent : String) : Option String → String
  | some s => s
  | none => absent

/-- The initialiser, lines 2 to 16: the order number is read, and the modal is constructed and
shown when its element exists and `data-rated` is not `"true"`. -/
def domContentLoaded (d : Document) : Page :=
  let alreadyRated : Bool :=
    match d.ratingModalEl with
    | some rated => rated == some "true"
    | none => false
  let construct : Bool := d.ratingModalEl.isSome && !alreadyRated
  { cookie := d.cookie
    orderNumber := d.orderNumberEl
    ratingModalEl := d.ratingModalEl
    ratingModal := construct
    orderRatingForm := d.orderRatingForm
    foodReviewForm := d.foodReviewForm
    alerts := []
    fetches := []
    consoleErrors := []
    modalShows := if construct then 1 else 0
    modalHides := 0 }

/-- The assignment `el.disabled = true` applied to what `'input, textarea, button'` selects. -/
def disableControl (c : Control) : Control :=
  if c.tag = .input ∨ c.tag = .textarea ∨ c.tag = .button then { c with disabled := true } else c

/-- The statement `if (ratingModalEl) ratingModalEl.dataset.rated = "true"`. -/
def markRated (el : Option (Option String)) : Option (Option String) :=
  el.map (fun _ => some "true")

/-! ## Overall order rating -/

/-- The selector `input[name="rating"]:checked`. -/
def isCheckedRating (c : Control) : Bool :=
  c.tag == .input && c.name == some "rating" && c.checked

/-- The selector `textarea[name="review"]`. -/
def isReviewTextarea (c : Control) : Bool :=
  c.tag == .textarea && c.name == some "review"

/-- The `catch` block of the rating handler. -/
def orderRatingCatch (p : Page) : Page :=
  { p with
    consoleErrors := p.consoleErrors ++ ["Error submitting order rating:"]
    alerts := p.alerts ++ [.str "Error submitting order rating"] }

/-- The rating handler up to `await fetch(...)`, lines 24 to 44. The second component is the
request when `fetch` was called. -/
def orderRatingStart (p : Page) : Page × Option Request :=
  match p.orderRatingForm with
  | none => (p, none)
  | some form =>
    let ratingInput := form.find? isCheckedRating
    let reviewEl := form.find? isReviewTextarea
    let review :=
      match reviewEl with
      | some el => trim el.value
      | none => ""
    match ratingInput with
    | none => ({ p with alerts := p.alerts ++ [.str "Please select a rating"] }, none)
    | some ratingInput =>
      let formData := [("rating", ratingInput.value), ("review", review)]
      match getCookie p.cookie "csrftoken" with
      | .error _ => (orderRatingCatch p, none)
      | .ok token =>
        let request : Request :=
          { url := "/orders/" ++ spliced "null" p.orderNumber ++ "/rate/"
            method := "POST"
            headers := [("X-CSRFToken", token)]
            body := .formData formData }
        ({ p with fetches := p.fetches ++ [request] }, some request)

/-- The success branch of the rating handler, lines 49 to 53. -/
def orderRatingSuccess (p : Page) : Page :=
  { p with
    alerts := p.alerts ++ [.str "Order rating submitted successfully"]
    orderRatingForm := p.orderRatingForm.map (fun form => form.map disableControl)
    ratingModalEl := markRated p.ratingModalEl
    modalHides := if p.ratingModal then p.modalHides + 1 else p.modalHides }

/-- The rating handler after `await fetch(...)`, lines 46 to 60. -/
def orderRatingFinish (outcome : FetchOutcome) (p : Page) : Page :=
  match outcome with
  | .rejected => orderRatingCatch p
  | .response ok body =>
    match body with
    | .unparsable => orderRatingCatch p
    | .null => if ok then orderRatingSuccess p else orderRatingCatch p
    | .props success message =>
      if ok || success.truthy then orderRatingSuccess p
      else
        { p with alerts := p.alerts ++ [message.or (.str "Failed to submit order rating")] }

/-- One uninterrupted run of the rating form's submit handler; `outcome` is what the network
answers if a request is made. -/
def orderRatingSubmit (outcome : FetchOutcome) (p : Page) : Page :=
  match orderRatingStart p with
  | (p1, none) => p1
  | (p1, some _) => orderRatingFinish outcome p1

/-! ## Per-item reviews -/

/-- The selector `button[type="submit"]`. -/
def isSubmitButton (c : Control) : Bool :=
  c.tag == .button && c.typeAttr == some "submit"

/-- Elements under a node, in document order. -/
def FormNode.controls : FormNode → List Control
  | .control c => [c]
  | .item r => r.controls

/-- The elements of the form in document order. -/
def formControls : List FormNode → List Control
  | [] => []
  | n :: ns => n.controls ++ formControls ns

/-- The call `foodReviewForm.querySelector('button[type="submit"]')`. -/
def querySubmitBtn (nodes : List FormNode) : Option Control :=
  (formControls nodes).find? isSubmitButton

/-- Assigns `disabled` on the first submit button of a list of elements. -/
def assignSubmitIn (b : Bool) : List Control → List Control
  | [] => []
  | c :: cs =>
    if isSubmitButton c then { c with disabled := b } :: cs else c :: assignSubmitIn b cs

/-- The assignment `submitBtn.disabled = b`, written on the element `querySubmitBtn` found. -/
def assignSubmitDisabled (b : Bool) : List FormNode → List FormNode
  | [] => []
  | .control c :: ns =>
    if isSubmitButton c then .control { c with disabled := b } :: ns
    else .control c :: assignSubmitDisabled b ns
  | .item r :: ns =>
    if r.controls.any isSubmitButton then
      .item { r with controls := assignSubmitIn b r.controls } :: ns
    else .item r :: assignSubmitDisabled b ns

/-- The call `foodReviewForm.querySelectorAll('.food-review-item')`. -/
def reviewItemsOf : List FormNode → List ReviewItem
  | [] => []
  | .control _ :: ns => reviewItemsOf ns
  | .item r :: ns => r :: reviewItemsOf ns

/-- The row's `input[name="rating-${foodItemId}"]:checked`. -/
def ReviewItem.ratingInput (item : ReviewItem) : Option Control :=
  item.controls.find? (fun c =>
    c.tag == .input && c.name == some ("rating-" ++ spliced "undefined" item.foodItemId)
      && c.checked)

/-- The row's `textarea[name="comment-${foodItemId}"]`. -/
def ReviewItem.commentInput (item : ReviewItem) : Option Control :=
  item.controls.find? (fun c =>
    c.tag == .textarea && c.name == some ("comment-" ++ spliced "undefined" item.foodItemId))

/-- The body of the `reviewItems.forEach` callback, lines 81 to 91, on the array built so far. -/
def pushReview (reviews : List ReviewEntry) (item : ReviewItem) : List ReviewEntry :=
  match item.ratingInput with
  | some ratingInput =>
    reviews ++
      [{ food_item_id := item.foodItemId
         rating := parseInt ratingInput.value
         comment :=
           match item.commentInput with
           | some commentInput => trim commentInput.value
           | none => "" }]
  | none => reviews

/-- The array `reviews` after the `forEach` of lines 80 to 92. -/
def collectReviews (reviewItems : List ReviewItem) : List ReviewEntry :=
  reviewItems.foldl pushReview []

/-- The `catch` block of the review handler: log, alert, re-enable the submit button. -/
def foodReviewCatch (p : Page) : Page :=
  { p with
    consoleErrors := p.consoleErrors ++ ["Error submitting reviews:"]
    alerts := p.alerts ++ [.str "Error submitting reviews"]
    foodReviewForm := p.foodReviewForm.map (assignSubmitDisabled false) }

/-- The review handler up to `await fetch(...)`, lines 70 to 108. A form without a submit
button makes `submitBtn.disabled` throw, which ends the handler. -/
def foodReviewStart (p : Page) : Page × Option Request :=
  match p.foodReviewForm with
  | none => (p, none)
  | some nodes =>
    match querySubmitBtn nodes with
    | none => (p, none)
    | some submitBtn =>
      if submitBtn.disabled then (p, none)
      else
        let nodes1 := assignSubmitDisabled true nodes
        let p1 := { p with foodReviewForm := some nodes1 }
        let reviews := collectReviews (reviewItemsOf nodes1)
        if reviews.length = 0 then
          ({ p1 with
              alerts := p1.alerts ++ [.str "Please provide at least one rating"]
              foodReviewForm := some (assignSubmitDisabled false nodes1) }, none)
        else
          match getCookie p1.cookie "csrftoken" with
          | .error _ => (foodReviewCatch p1, none)
          | .ok token =>
            let request : Request :=
              { url := "/orders/" ++ spliced "null" p1.orderNumber ++ "/submit_review/"
                method := "POST"
                headers := [("Content-Type", some "application/json"), ("X-CSRFToken", token)]
                body := .json reviews }
            ({ p1 with fetches := p1.fetches ++ [request] }, some request)

/-- Disables every `input`, `textarea` and `button` inside every review row, lines 114-117. -/
def disableItems : List FormNode → List FormNode
  | [] => []
  | .control c :: ns => .control c :: disableItems ns
  | .item r :: ns => .item { r with controls := r.controls.map disableControl } :: disableItems ns

/-- The success branch of the review handler, lines 113 to 119. -/
def foodReviewSuccess (p : Page) : Page :=
  { p with
    alerts := p.alerts ++ [.str "Reviews submitted successfully!"]
    foodReviewForm := p.foodReviewForm.map disableItems
    ratingModalEl := markRated p.ratingModalEl
    modalHides := if p.ratingModal then p.modalHides + 1 else p.modalHides }

/-- The review handler after `await fetch(...)`, lines 110 to 128. -/
def foodReviewFinish (outcome : FetchOutcome) (p : Page) : Page :=
  match outcome with
  | .rejected => foodReviewCatch p
  | .response _ body =>
    match body with
    | .unparsable => foodReviewCatch p
    | .null => foodReviewCatch p
    | .props success message =>
      if success.truthy then foodReviewSuccess p
      else
        { p with
          alerts := p.alerts ++ [message.or (.str "Failed to submit reviews")]
          foodReviewForm := p.foodReviewForm.map (assignSubmitDisabled false) }

/-- A radio input. -/
def radio (name value : String) (checked : Bool) : Control :=
  { tag := .input, name := some name, typeAttr := some "radio", checked := checked,
    value := value, disabled := false }

/-- A textarea holding `value`. -/
def textareaOf (name value : String) : Control :=
  { tag := .textarea, name := some name, typeAttr := none, checked := false,
    value := value, disabled := false }

/-- An enabled `button[type="submit"]`. -/
def submitButton : Control :=
  { tag := .button, name := none, typeAttr := some "submit", checked := false,
    value := "", disabled := false }

/-- Rating form of the scenario: rating 4 chosen, review "Great service". -/
def sampleRatingForm : List Control :=
  [radio "rating" "5" false, radio "rating" "4" true, textareaOf "review" " Great service ",
    submitButton]

/-- Review row A: rating 5, comment "Tasty". -/
def rowA : ReviewItem :=
  { foodItemId := some "A"
    controls := [radio "rating-A" "4" false, radio "rating-A" "5" true,
      textareaOf "comment-A" "Tasty "] }

/-- Review row B: no rating chosen. -/
def rowB : ReviewItem :=
  { foodItemId := some "B"
    controls := [radio "rating-B" "4" false, radio "rating-B" "5" false,
      textareaOf "comment-B" "so so"] }

/-- Review form of the scenario: rows A and B, then the submit button. -/
def sampleReviewForm : List FormNode :=
  [.item rowA, .item rowB, .control submitButton]

/-- Order 1024, not yet rated, with a CSRF cookie. -/
def sampleDocument : Document :=
  { cookie := "sessionid=s1; csrftoken=tok%2B1"
    orderNumberEl := some "1024"
    ratingModalEl := some (some "false")
    orderRatingForm := some sampleRatingForm
    foodReviewForm := some sampleReviewForm }

/-- The sample page once loaded. -/
def samplePage : Page := domContentLoaded sampleDocument

/-- The request the sample review form gives rise to. -/
def sampleReviewRequest : Request :=
  { url := "/orders/1024/submit_review/"
    method := "POST"
    headers := [("Content-Type", some "application/json"), ("X-CSRFToken", some "tok+1")]
    body := .json [{ food_item_id := some "A", rating := some 5, comment := "Tasty" }] }

/-- The request the sample rating form gives rise to. -/
def sampleRatingRequest : Request :=
  { url := "/orders/1024/rate/"
    method := "POST"
    headers := [("X-CSRFToken", some "tok+1")]
    body := .formData [("rating", "4"), ("review", "Great service")] }

/-! ## The batch the specification describes -/

/-- Whether the rating handler takes its success branch on this outcome (line 48 reached and
`response.ok || data.success` truthy). -/
def ratingSucceeds : FetchOutcome → Bool
  | .response ok .null => ok
  | .response ok (.props success _) => ok || success.truthy
  | _ => false

/-- Whether the review handler takes its success branch on this outcome (line 112 reached and
`data.success` truthy). -/
def reviewSucceeds : FetchOutcome → Bool
  | .response _ (.props success _) => success.truthy
  | _ => false

/-! ## The cookie helper -/

theorem splitChars_ne_nil (sep : Char) (l : List Char) : splitChars sep l ≠ [] := by
  cases l with
  | nil => simp [splitChars]
  | cons c cs =>
    unfold splitChars
    split
    · simp
    · split <;> simp

theorem joinChars_splitChars (sep : Char) (l : List Char) :
    joinChars sep (splitChars sep l) = l := by
  induction l with
  | nil => rfl
  | cons c cs ih =>
    unfold splitChars
    cases hs : splitChars sep cs with
    | nil => exact absurd hs (splitChars_ne_nil sep cs)
    | cons piece pieces =>
      rw [hs] at ih
      by_cases hc : c = sep
      · simp only [hc, if_true, joinChars, List.nil_append]
        rw [ih]
      · simp only [hc, if_false]
        cases pieces with
        | nil =>
          simp only [joinChars] at ih ⊢
          rw [ih]
        | cons next more =>
          simp only [joinChars, List.cons_append] at ih ⊢
          rw [ih]

theorem splitChars_no_sep (sep : Char) (l : List Char) :
    ∀ piece ∈ splitChars sep l, sep ∉ piece := by
  induction l with
  | nil => simp [splitChars]
  | cons c cs ih =>
    unfold splitChars
    cases hs : splitChars sep cs with
    | nil => exact absurd hs (splitChars_ne_nil sep cs)
    | cons piece pieces =>
      rw [hs] at ih
      by_cases hc : c = sep
      · simp only [hc, if_true]
        intro q hq
        rcases List.mem_cons.mp hq with h | h
        · rw [h]
          simp
        · exact ih q h
      · simp only [hc, if_false]
        intro q hq
        rcases List.mem_cons.mp hq with h | h
        · rw [h]
          intro hmem
          rcases List.mem_cons.mp hmem with h2 | h2
          · exact hc h2.symm
          · exact ih piece (List.mem_cons_self _ _) h2
        · exact ih q (List.mem_cons_of_mem _ h)

theorem getCookieLoop_skip (name : String) (before rest : List (List Char))
    (hb : ∀ q ∈ before, (name.data ++ ['=']).isPrefixOf (trimChars q) = false) :
    getCookieLoop name (before ++ rest) = getCookieLoop name rest := by
  induction before with
  | nil => rfl
  | cons q qs ih =>
    have hq := hb q (List.mem_cons_self q qs)
    have hqs : ∀ q2 ∈ qs, (name.data ++ ['=']).isPrefixOf (trimChars q2) = false :=
      fun q2 h2 => hb q2 (List.mem_cons_of_mem q h2)
    simp only [List.cons_append, getCookieLoop, hq]
    simpa using ih hqs

theorem getCookieLoop_none (name : String) (pieces : List (List Char))
    (hb : ∀ q ∈ pieces, (name.data ++ ['=']).isPrefixOf (trimChars q) = false) :
    getCookieLoop name pieces = .ok none := by
  have h := getCookieLoop_skip name pieces [] hb
  simpa [getCookieLoop] using h

theorem getCookieLoop_hit (name : String) (piece rest : List Char) (after : List (List Char))
    (hp : trimChars piece = name.data ++ '=' :: rest) :
    getCookieLoop name (piece :: after) = (decodeURIComponent rest).map some := by
  have h1 : (name.data ++ ['=']).isPrefixOf (name.data ++ '=' :: rest) = true := by
    rw [ List.isPrefixOf_iff_prefix]
    exact ⟨rest, by simp⟩
  have h2 : (name.data ++ '=' :: rest).drop (name.length + 1) = rest := by
    have : name.data ++ '=' :: rest = (name.data ++ ['=']) ++ rest := by simp
    rw [this]
    apply List.drop_left'
    rw [List.length_append]
    rfl
  simp only [getCookieLoop, hp, h1, h2, if_true]
  cases decodeURIComponent rest <;> rfl

/-- C9. `getCookie(n)` on cookie string `c`: `null` when `c` is empty or no trimmed piece of
`c.split(';')` starts with `n=`; otherwise the URL-decoding of what follows `n=` in the first
such piece, whatever comes later. A name that only ends in `n` does not match, and a second
piece of the same name is ignored. The pieces are those of a split on `;`: none contains `;`
and joined with `;` they give `c` back. -/
theorem getCookie_first_match (c n : String) :
    (c = "" → getCookie c n = .ok none) ∧
    ((∀ q ∈ splitChars ';' c.data, (n.data ++ ['=']).isPrefixOf (trimChars q) = false) →
      getCookie c n = .ok none) ∧
    (∀ (before after : List (List Char)) (piece rest : List Char),
      splitChars ';' c.data = before ++ piece :: after →
      (∀ q ∈ before, (n.data ++ ['=']).isPrefixOf (trimChars q) = false) →
      trimChars piece = n.data ++ '=' :: rest →
      getCookie c n = (decodeURIComponent rest).map some) ∧
    getCookie "xcsrftoken=abc" "csrftoken" = .ok none ∧
    getCookie "a=1; a=2" "a" = .ok (some "1") ∧
    joinChars ';' (splitChars ';' c.data) = c.data ∧
    (∀ piece ∈ splitChars ';' c.data, ';' ∉ piece) := by
  refine ⟨?_, ?_, ?_, by decide, by decide, joinChars_splitChars _ _, splitChars_no_sep _ _⟩
  · intro h
    subst h
    rfl
  · intro h
    unfold getCookie
    split
    · exact getCookieLoop_none n _ h
    · rfl
  · intro before after piece rest hs hb hp
    unfold getCookie
    split
    · rw [hs, getCookieLoop_skip n before _ hb]
      exact getCookieLoop_hit n piece rest after hp
    · rename_i hc
      have hc2 : c = "" := by simpa using hc
      subst hc2
      exfalso
      have h0 : splitChars ';' ("" : String).data = [[]] := by decide
      rw [h0] at hs
      cases before with
      | nil =>
        simp only [List.nil_append, List.cons.injEq] at hs
        rw [← hs.1] at hp
        have h1 : trimChars [] = [] := by decide
        rw [h1] at hp
        have := congrArg List.length hp
        simp at this
        omega
      | cons b bs =>
        have := congrArg List.length hs
        simp at this

/-- C9 at a cookie string with a foreign cookie, the token, and a second token. -/
theorem getCookie_first_match_witness :
    splitChars ';' ("xcsrftoken=no; csrftoken=a%20b; csrftoken=late" : String).data
        = ["xcsrftoken=no".data] ++ " csrftoken=a%20b".data :: [" csrftoken=late".data] ∧
    (∀ q ∈ ["xcsrftoken=no".data],
      (("csrftoken" : String).data ++ ['=']).isPrefixOf (trimChars q) = false) ∧
    trimChars " csrftoken=a%20b".data = ("csrftoken" : String).data ++ '=' :: "a%20b".data ∧
    getCookie "xcsrftoken=no; csrftoken=a%20b; csrftoken=late" "csrftoken"
      = (decodeURIComponent "a%20b".data).map some ∧
    (decodeURIComponent "a%20b".data).map some = .ok (some "a b") :=
  ⟨by decide, by decide, by decide,
    (getCookie_first_match "xcsrftoken=no; csrftoken=a%20b; csrftoken=late" "csrftoken").2.2.1
      ["xcsrftoken=no".data] [" csrftoken=late".data] " csrftoken=a%20b".data "a%20b".data
      (by decide) (by decide) (by decide),
    by decide⟩

/-! ## The submit button of the review form -/

theorem find_submit_assignIn (b : Bool) (cs : List Control) :
    (assignSubmitIn b cs).find? isSubmitButton
      = (cs.find? isSubmitButton).map (fun c => { c with disabled := b }) := by
  induction cs with
  | nil => rfl
  | cons c cs ih =>
    unfold assignSubmitIn
    by_cases hc : isSubmitButton c = true
    · have hc2 : isSubmitButton { c with disabled := b } = true := hc
      simp only [hc, if_true, List.find?_cons, hc2, Option.map_some']
    · have hc3 : isSubmitButton c = false := by simpa using hc
      simp [hc3, List.find?_cons, ih]

theorem find_submit_of_any_false (cs : List Control) (h : ¬ cs.any isSubmitButton = true) :
    cs.find? isSubmitButton = none := by
  simp only [List.any_eq_true, not_exists, not_and] at h
  simpa using h

theorem find_submit_of_any_true (cs : List Control) (h : cs.any isSubmitButton = true) :
    ∃ c, cs.find? isSubmitButton = some c := by
  have : (cs.find? isSubmitButton).isSome = true := by
    rw [List.find?_isSome]
    simpa using h
  exact Option.isSome_iff_exists.mp this

theorem querySubmitBtn_assign (b : Bool) (nodes : List FormNode) :
    querySubmitBtn (assignSubmitDisabled b nodes)
      = (querySubmitBtn nodes).map (fun c => { c with disabled := b }) := by
  induction nodes with
  | nil => rfl
  | cons n ns ih =>
    unfold querySubmitBtn at ih ⊢
    cases n with
    | control c =>
      unfold assignSubmitDisabled
      by_cases hc : isSubmitButton c = true
      · have hc2 : isSubmitButton { c with disabled := b } = true := hc
        simp [hc, formControls, FormNode.controls, hc2]
      · simp [hc, formControls, FormNode.controls, ih]
    | item r =>
      unfold assignSubmitDisabled
      by_cases hr : r.controls.any isSubmitButton = true
      · obtain ⟨c, hc⟩ := find_submit_of_any_true r.controls hr
        simp [hr, formControls, FormNode.controls, find_submit_assignIn, hc]
      · have hn := find_submit_of_any_false r.controls hr
        simp only [hr, formControls, FormNode.controls, List.find?_append, hn, ih]
        simp

theorem assignSubmitIn_same (b : Bool) (cs : List Control)
    (h : ∀ c, cs.find? isSubmitButton = some c → c.disabled = b) :
    assignSubmitIn b cs = cs := by
  induction cs with
  | nil => rfl
  | cons c cs ih =>
    unfold assignSubmitIn
    by_cases hc : isSubmitButton c = true
    · have hd : c.disabled = b := h c (by simp [List.find?_cons, hc])
      simp only [hc, if_true]
      rw [← hd]
    · have h2 : ∀ c2, cs.find? isSubmitButton = some c2 → c2.disabled = b := by
        intro c2 h3
        apply h c2
        simp only [List.find?_cons]
        simp only [Bool.not_eq_true] at hc
        rw [hc]
        exact h3
      simp only [hc, ih h2]
      rfl

theorem assignSubmitDisabled_same (b : Bool) (nodes : List FormNode)
    (h : ∀ c, querySubmitBtn nodes = some c → c.disabled = b) :
    assignSubmitDisabled b nodes = nodes := by
  induction nodes with
  | nil => rfl
  | cons n ns ih =>
    unfold querySubmitBtn at ih h
    cases n with
    | control c =>
      unfold assignSubmitDisabled
      by_cases hc : isSubmitButton c = true
      · have hd : c.disabled = b := h c (by simp [formControls, FormNode.controls, hc])
        simp only [hc, if_true]
        rw [← hd]
      · have h2 : ∀ c2, (formControls ns).find? isSubmitButton = some c2 → c2.disabled = b := by
          intro c2 h3
          apply h c2
          simp only [Bool.not_eq_true] at hc
          simp [formControls, FormNode.controls, hc, h3]
        simp only [hc, ih h2]
        rfl
    | item r =>
      unfold assignSubmitDisabled
      by_cases hr : r.controls.any isSubmitButton = true
      · obtain ⟨c, hc⟩ := find_submit_of_any_true r.controls hr
        have h2 : ∀ c2, r.controls.find? isSubmitButton = some c2 → c2.disabled = b := by
          intro c2 h3
          apply h c2
          simp [formControls, FormNode.controls, h3]
        simp only [hr, if_true, assignSubmitIn_same b r.controls h2]
      · have hn := find_submit_of_any_false r.controls hr
        have h2 : ∀ c2, (formControls ns).find? isSubmitButton = some c2 → c2.disabled = b := by
          intro c2 h3
          apply h c2
          simp [formControls, FormNode.controls, hn, h3]
        simp only [hr, ih h2]
        rfl

theorem assignIn_assignIn (b1 b2 : Bool) (cs : List Control) :
    assignSubmitIn b2 (assignSubmitIn b1 cs) = assignSubmitIn b2 cs := by
  induction cs with
  | nil => rfl
  | cons c cs ih =>
    by_cases hc : isSubmitButton c = true
    · have hc2 : isSubmitButton { c with disabled := b1 } = true := hc
      simp only [assignSubmitIn, hc, if_true, hc2]
    · simp only [assignSubmitIn, hc, ih]
      rfl

theorem any_submit_assignIn (b : Bool) (cs : List Control) :
    (assignSubmitIn b cs).any isSubmitButton = cs.any isSubmitButton := by
  induction cs with
  | nil => rfl
  | cons c cs ih =>
    by_cases hc : isSubmitButton c = true
    · have hc2 : isSubmitButton { c with disabled := b } = true := hc
      simp only [assignSubmitIn, hc, if_true, List.any_cons, hc2]
    · have hc3 : isSubmitButton c = false := by simpa using hc
      simp [assignSubmitIn, hc3, ih]

theorem assign_assign (b1 b2 : Bool) (nodes : List FormNode) :
    assignSubmitDisabled b2 (assignSubmitDisabled b1 nodes) = assignSubmitDisabled b2 nodes := by
  induction nodes with
  | nil => rfl
  | cons n ns ih =>
    cases n with
    | control c =>
      by_cases hc : isSubmitButton c = true
      · have hc2 : isSubmitButton { c with disabled := b1 } = true := hc
        simp only [assignSubmitDisabled, hc, if_true, hc2]
      · simp only [assignSubmitDisabled, hc, ih]
        rfl
    | item r =>
      by_cases hr : r.controls.any isSubmitButton = true
      · simp only [assignSubmitDisabled, hr, if_true, any_submit_assignIn, assignIn_assignIn]
      · simp only [assignSubmitDisabled, hr, ih]
        rfl

/-- Disabling then re-enabling the submit button of a form whose button was enabled gives the
form back. -/
theorem assign_false_true (nodes : List FormNode) (btn : Control)
    (hb : querySubmitBtn nodes = some btn) (he : btn.disabled = false) :
    assignSubmitDisabled false (assignSubmitDisabled true nodes) = nodes := by
  rw [assign_assign]
  apply assignSubmitDisabled_same
  intro c hc
  rw [hb] at hc
  cases hc
  exact he

/-- What a started review submission looks like: the button was there and enabled, and the new
page differs by the disabled button and the logged request. -/
theorem foodReviewStart_request (p p1 : Page) (req : Request)
    (hs : foodReviewStart p = (p1, some req)) :
    ∃ nodes btn, p.foodReviewForm = some nodes ∧ querySubmitBtn nodes = some btn ∧
      btn.disabled = false ∧
      p1 = { p with
              foodReviewForm := some (assignSubmitDisabled true nodes)
              fetches := p.fetches ++ [req] } := by
  unfold foodReviewStart at hs
  cases hf : p.foodReviewForm with
  | none => simp [hf] at hs
  | some nodes =>
    cases hb : querySubmitBtn nodes with
    | none => simp [hf, hb] at hs
    | some btn =>
      cases he : btn.disabled with
      | true => simp [hf, hb, he] at hs
      | false =>
        refine ⟨nodes, btn, rfl, hb, he, ?_⟩
        simp only [hf, hb, he, Bool.false_eq_true, if_false] at hs
        split at hs
        · simp at hs
        · split at hs
          · simp at hs
          · simp only [Prod.mk.injEq, Option.some.injEq] at hs
            rw [← hs.1, ← hs.2]

theorem foodReviewStart_disabled (p : Page) (nodes : List FormNode) (btn : Control)
    (hf : p.foodReviewForm = some nodes) (hb : querySubmitBtn nodes = some btn)
    (hd : btn.disabled = true) : foodReviewStart p = (p, none) := by
  unfold foodReviewStart
  simp only [hf, hb, hd, if_true]

/-- C2. A submit event on the review form while its submit button is disabled does nothing:
no request, no change of state. A submission that reaches the network has disabled the button
before the request is awaited, so every further submit event while the request is in flight
leaves the page as it is and the one request stays the only one. -/
theorem review_double_submit_guard (p : Page) :
    (∀ nodes btn, p.foodReviewForm = some nodes → querySubmitBtn nodes = some btn →
      btn.disabled = true → foodReviewStart p = (p, none)) ∧
    (∀ p1 req, foodReviewStart p = (p1, some req) →
      (∃ nodes1 btn1, p1.foodReviewForm = some nodes1 ∧ querySubmitBtn nodes1 = some btn1 ∧
        btn1.disabled = true) ∧
      p1.fetches = p.fetches ++ [req] ∧
      foodReviewStart p1 = (p1, none) ∧
      ∀ n : Nat, (fun q => (foodReviewStart q).1)^[n] p1 = p1) := by
  refine ⟨fun nodes btn hf hb hd => foodReviewStart_disabled p nodes btn hf hb hd, ?_⟩
  intro p1 req hs
  obtain ⟨nodes, btn, hf, hb, _, hp1⟩ := foodReviewStart_request p p1 req hs
  have hq : querySubmitBtn (assignSubmitDisabled true nodes)
      = some { btn with disabled := true } := by
    rw [querySubmitBtn_assign, hb]
    rfl
  have hform : p1.foodReviewForm = some (assignSubmitDisabled true nodes) := by rw [hp1]
  have hnoop : foodReviewStart p1 = (p1, none) :=
    foodReviewStart_disabled p1 _ _ hform hq rfl
  refine ⟨⟨_, _, hform, hq, rfl⟩, by rw [hp1], hnoop, ?_⟩
  intro n
  induction n with
  | zero => rfl
  | succ k ih =>
    rw [Function.iterate_succ_apply]
    simp only [hnoop]
    exact ih

/-- C2 on the sample page: the first submit event posts the batch, a second one is ignored. -/
theorem review_double_submit_guard_witness :
    foodReviewStart samplePage
      = ((foodReviewStart samplePage).1, some sampleReviewRequest) ∧
    (foodReviewStart (foodReviewStart samplePage).1).1.fetches.length = 1 ∧
    foodReviewStart (foodReviewStart samplePage).1 = ((foodReviewStart samplePage).1, none) :=
  ⟨by decide, by decide,
    ((review_double_submit_guard samplePage).2 (foodReviewStart samplePage).1
      sampleReviewRequest (by decide)).2.2.1⟩

/-- C3. Submitting the rating form with no rating radio selected, whatever the review text,
makes no request and does nothing but show the alert "Please select a rating": every form
control and the modal's rated flag stay as they were. -/
theorem rating_without_selection (p : Page) (form : List Control) (outcome : FetchOutcome)
    (hf : p.orderRatingForm = some form) (hr : form.find? isCheckedRating = none) :
    orderRatingStart p = ({ p with alerts := p.alerts ++ [.str "Please select a rating"] }, none) ∧
    orderRatingSubmit outcome p = { p with alerts := p.alerts ++ [.str "Please select a rating"] } ∧
    (orderRatingSubmit outcome p).fetches = p.fetches ∧
    (orderRatingSubmit outcome p).orderRatingForm = some form ∧
    (orderRatingSubmit outcome p).foodReviewForm = p.foodReviewForm ∧
    (orderRatingSubmit outcome p).ratingModalEl = p.ratingModalEl := by
  have hstart : orderRatingStart p
      = ({ p with alerts := p.alerts ++ [.str "Please select a rating"] }, none) := by
    unfold orderRatingStart
    simp only [hf, hr]
  have hsub : orderRatingSubmit outcome p
      = { p with alerts := p.alerts ++ [.str "Please select a rating"] } := by
    unfold orderRatingSubmit
    rw [hstart]
  refine ⟨hstart, hsub, ?_, ?_, ?_, ?_⟩ <;> rw [hsub]
  exact hf

/-- Rating form with a review typed but no radio checked. -/
theorem rating_without_selection_witness :
    [radio "rating" "5" false, textareaOf "review" "fine", submitButton].find? isCheckedRating
      = none ∧
    (orderRatingSubmit (.response true (.props (.bool true) .undefined))
        { samplePage with
          orderRatingForm :=
            some [radio "rating" "5" false, textareaOf "review" "fine", submitButton] }).fetches
      = [] :=
  ⟨by decide,
    (rating_without_selection
      { samplePage with
        orderRatingForm :=
          some [radio "rating" "5" false, textareaOf "review" "fine", submitButton] }
      [radio "rating" "5" false, textareaOf "review" "fine", submitButton]
      (.response true (.props (.bool true) .undefined)) rfl (by decide)).2.2.1⟩

/-- What a started rating submission looks like: a rating was selected, the cookie was
readable, and the new page differs by the logged request only. -/
theorem orderRatingStart_request (p p1 : Page) (req : Request)
    (hs : orderRatingStart p = (p1, some req)) :
    ∃ form selected token, p.orderRatingForm = some form ∧
      form.find? isCheckedRating = some selected ∧
      getCookie p.cookie "csrftoken" = .ok token ∧
      p1 = { p with fetches := p.fetches ++ [req] } := by
  unfold orderRatingStart at hs
  cases hf : p.orderRatingForm with
  | none => simp [hf] at hs
  | some form =>
    cases hr : form.find? isCheckedRating with
    | none => simp [hf, hr] at hs
    | some selected =>
      cases hc : getCookie p.cookie "csrftoken" with
      | error e => simp [hf, hr, hc] at hs
      | ok token =>
        refine ⟨form, selected, token, rfl, hr, rfl, ?_⟩
        simp only [hf, hr, hc, Prod.mk.injEq, Option.some.injEq] at hs
        rw [← hs.1, ← hs.2]

theorem orderRatingFinish_fetches (outcome : FetchOutcome) (p : Page) :
    (orderRatingFinish outcome p).fetches = p.fetches := by
  unfold orderRatingFinish
  cases outcome with
  | rejected => rfl
  | response ok body =>
    cases body with
    | unparsable => rfl
    | null => cases ok <;> rfl
    | props success message =>
      simp only
      split <;> rfl

theorem orderRatingFinish_success (outcome : FetchOutcome) (p : Page)
    (h : ratingSucceeds outcome = true) :
    orderRatingFinish outcome p = orderRatingSuccess p := by
  unfold orderRatingFinish
  cases outcome with
  | rejected => simp [ratingSucceeds] at h
  | response ok body =>
    cases body with
    | unparsable => simp [ratingSucceeds] at h
    | null =>
      simp only [ratingSucceeds] at h
      subst h
      rfl
    | props success message =>
      simp only [ratingSucceeds] at h
      simp only [h, if_true]

theorem disableControl_disabled (c : Control)
    (ht : c.tag = .input ∨ c.tag = .textarea ∨ c.tag = .button) :
    (disableControl c).disabled = true := by
  unfold disableControl
  simp only [ht, if_true]

/-- C5, amended. When the server answers a rating submission with a failing HTTP status and a
JSON body whose `success` is false (or otherwise falsy) and whose `message` is a non-empty
string `m`, the handler alerts exactly `m`, disables no control of the rating form, leaves the
modal's rated flag as it was and does not hide the modal. -/
theorem rating_server_failure_message (p p1 : Page) (req : Request) (success : JsVal)
    (m : String) (hs : orderRatingStart p = (p1, some req))
    (hfalse : success.truthy = false) (hm : m ≠ "") :
    orderRatingFinish (.response false (.props success (.str m))) p1
      = { p1 with alerts := p1.alerts ++ [.str m] } ∧
    (orderRatingFinish (.response false (.props success (.str m))) p1).alerts
      = p.alerts ++ [.str m] ∧
    (orderRatingFinish (.response false (.props success (.str m))) p1).orderRatingForm
      = p.orderRatingForm ∧
    (orderRatingFinish (.response false (.props success (.str m))) p1).ratingModalEl
      = p.ratingModalEl ∧
    (orderRatingFinish (.response false (.props success (.str m))) p1).modalHides
      = p.modalHides := by
  obtain ⟨form, selected, token, _, _, _, hp1⟩ := orderRatingStart_request p p1 req hs
  have hor : (JsVal.str m).or (.str "Failed to submit order rating") = .str m := by
    simp [JsVal.or, JsVal.truthy, hm]
  have hfin : orderRatingFinish (.response false (.props success (.str m))) p1
      = { p1 with alerts := p1.alerts ++ [.str m] } := by
    unfold orderRatingFinish
    simp only [hfalse, hor, Bool.or_self, Bool.false_eq_true, if_false]
  refine ⟨hfin, ?_, ?_, ?_, ?_⟩ <;> rw [hfin, hp1]

/-- The scenario "Order not found" answered with a failing status. -/
theorem rating_server_failure_message_witness :
    orderRatingStart samplePage = ((orderRatingStart samplePage).1, some sampleRatingRequest) ∧
    (orderRatingFinish (.response false (.props (.bool false) (.str "Order not found")))
        (orderRatingStart samplePage).1).alerts
      = samplePage.alerts ++ [.str "Order not found"] ∧
    (orderRatingFinish (.response false (.props (.bool false) (.str "Order not found")))
        (orderRatingStart samplePage).1).orderRatingForm
      = samplePage.orderRatingForm :=
  ⟨by decide,
    (rating_server_failure_message samplePage (orderRatingStart samplePage).1
      sampleRatingRequest (.bool false) "Order not found" (by decide) rfl (by decide)).2.1,
    (rating_server_failure_message samplePage (orderRatingStart samplePage).1
      sampleRatingRequest (.bool false) "Order not found" (by decide) rfl (by decide)).2.2.1⟩

/-- C5 fails as stated: the body `{success: false, message: "Order not found"}` sent with a
successful HTTP status takes the success branch, so the success text is alerted, the whole
form is disabled, the rated flag is set and the modal is hidden. -/
theorem rating_failure_body_with_ok_status :
    (orderRatingSubmit (.response true (.props (.bool false) (.str "Order not found")))
        samplePage).alerts = [.str "Order rating submitted successfully"] ∧
    (orderRatingSubmit (.response true (.props (.bool false) (.str "Order not found")))
        samplePage).alerts ≠ samplePage.alerts ++ [.str "Order not found"] ∧
    (orderRatingSubmit (.response true (.props (.bool false) (.str "Order not found")))
        samplePage).orderRatingForm = some (sampleRatingForm.map disableControl) ∧
    ((orderRatingSubmit (.response true (.props (.bool false) (.str "Order not found")))
        samplePage).orderRatingForm.map (fun form => form.map (fun c => c.disabled)))
      = some [true, true, true, true] ∧
    (orderRatingSubmit (.response true (.props (.bool false) (.str "Order not found")))
        samplePage).ratingModalEl = some (some "true") ∧
    (orderRatingSubmit (.response true (.props (.bool false) (.str "Order not found")))
        samplePage).modalHides = 1 := by
  decide

/-- C6, amended. When a rating submission reaches the network and the handler takes its
success branch (the body parses as JSON and the HTTP status is successful or `success` is
truthy), every input, textarea and button of the rating form ends disabled, the rated flag is
set on the modal element if there is one, and the modal's hide action fires once when the
modal was constructed at load and not at all otherwise; on a freshly loaded page that is once
exactly when the modal element exists and was not already marked rated. -/
theorem rating_success_terminal (p p1 : Page) (req : Request) (outcome : FetchOutcome)
    (hs : orderRatingStart p = (p1, some req)) (hok : ratingSucceeds outcome = true) :
    (∀ form, (orderRatingFinish outcome p1).orderRatingForm = some form →
      ∀ c ∈ form, (c.tag = .input ∨ c.tag = .textarea ∨ c.tag = .button) → c.disabled = true) ∧
    (orderRatingFinish outcome p1).orderRatingForm
      = p.orderRatingForm.map (fun form => form.map disableControl) ∧
    (orderRatingFinish outcome p1).alerts
      = p.alerts ++ [.str "Order rating submitted successfully"] ∧
    (orderRatingFinish outcome p1).ratingModalEl = markRated p.ratingModalEl ∧
    (orderRatingFinish outcome p1).modalHides
      = p.modalHides + (if p.ratingModal then 1 else 0) ∧
    (∀ d : Document, p = domContentLoaded d →
      (orderRatingFinish outcome p1).modalHides
        = if (∃ rated, d.ratingModalEl = some rated ∧ rated ≠ some "true") then 1 else 0) := by
  obtain ⟨form, selected, token, hf, _, _, hp1⟩ := orderRatingStart_request p p1 req hs
  rw [orderRatingFinish_success outcome p1 hok, hp1]
  have hh : (orderRatingSuccess { p with fetches := p.fetches ++ [req] }).modalHides
      = p.modalHides + (if p.ratingModal then 1 else 0) := by
    unfold orderRatingSuccess
    cases p.ratingModal <;> simp
  refine ⟨?_, rfl, rfl, rfl, hh, ?_⟩
  · intro form2 hform2 c hc ht
    simp only [orderRatingSuccess, hf, Option.map_some', Option.some.injEq] at hform2
    rw [← hform2] at hc
    obtain ⟨c0, hc0, hcc⟩ := List.mem_map.mp hc
    have ht0 : c0.tag = .input ∨ c0.tag = .textarea ∨ c0.tag = .button := by
      rw [← hcc] at ht
      unfold disableControl at ht
      split at ht
      · assumption
      · exact ht
    rw [← hcc]
    exact disableControl_disabled c0 ht0
  · intro d hd
    rw [hh, hd]
    unfold domContentLoaded
    cases hm : d.ratingModalEl with
    | none => simp
    | some rated =>
      by_cases hr : rated = some "true"
      · simp [hr]
      · simp [hr]

/-- The scenario of order 1024 answered `{success: true}`: form disabled, modal hidden once. -/
theorem rating_success_terminal_witness :
    orderRatingStart samplePage = ((orderRatingStart samplePage).1, some sampleRatingRequest) ∧
    ratingSucceeds (.response true (.props (.bool true) .undefined)) = true ∧
    (orderRatingFinish (.response true (.props (.bool true) .undefined))
        (orderRatingStart samplePage).1).modalHides
      = samplePage.modalHides + (if samplePage.ratingModal then 1 else 0) ∧
    samplePage.modalHides + (if samplePage.ratingModal then 1 else 0) = 1 :=
  ⟨by decide, by decide,
    (rating_success_terminal samplePage (orderRatingStart samplePage).1 sampleRatingRequest
      (.response true (.props (.bool true) .undefined)) (by decide) (by decide)).2.2.2.2.1,
    by decide⟩

/-- C6 fails as stated. On a page loaded with the modal already marked rated (or without the
modal element) a successful submission disables the form but never calls `hide`; and a
response with a successful HTTP status whose body is not JSON disables nothing. -/
theorem rating_success_without_hide :
    ratingSucceeds (.response true (.props (.bool true) .undefined)) = true ∧
    (orderRatingSubmit (.response true (.props (.bool true) .undefined))
        (domContentLoaded { sampleDocument with ratingModalEl := some (some "true") })).fetches
      = [sampleRatingRequest] ∧
    (orderRatingSubmit (.response true (.props (.bool true) .undefined))
        (domContentLoaded { sampleDocument with ratingModalEl := some (some "true") })).alerts
      = [.str "Order rating submitted successfully"] ∧
    (orderRatingSubmit (.response true (.props (.bool true) .undefined))
        (domContentLoaded { sampleDocument with ratingModalEl := some (some "true") })).modalHides
      = 0 ∧
    (orderRatingSubmit (.response true (.props (.bool true) .undefined))
        (domContentLoaded { sampleDocument with ratingModalEl := none })).modalHides = 0 ∧
    (orderRatingSubmit (.response true (.props (.bool true) .undefined))
        (domContentLoaded { sampleDocument with ratingModalEl := none })).orderRatingForm
      = some (sampleRatingForm.map disableControl) ∧
    (orderRatingSubmit (.response true .unparsable) samplePage).orderRatingForm
      = some sampleRatingForm ∧
    (orderRatingSubmit (.response true .unparsable) samplePage).modalHides = 0 ∧
    (orderRatingSubmit (.response true .unparsable) samplePage).alerts
      = [.str "Error submitting order rating"] := by
  decide

/-! ## Failure and success of a review submission -/

theorem foodReviewFinish_fetches (outcome : FetchOutcome) (p : Page) :
    (foodReviewFinish outcome p).fetches = p.fetches := by
  unfold foodReviewFinish
  cases outcome with
  | rejected => rfl
  | response ok body =>
    cases body with
    | unparsable => rfl
    | null => rfl
    | props success message =>
      simp only
      split <;> rfl

/-- A review submission that reached the network and does not take the success branch gives
the form back as it was before the submit event, and touches neither the rated flag nor the
modal. -/
theorem foodReviewFinish_not_success (p : Page) (nodes : List FormNode) (btn : Control)
    (req : Request) (outcome : FetchOutcome)
    (hb : querySubmitBtn nodes = some btn) (he : btn.disabled = false)
    (h : reviewSucceeds outcome = false) :
    (foodReviewFinish outcome
        { p with
          foodReviewForm := some (assignSubmitDisabled true nodes)
          fetches := p.fetches ++ [req] }).foodReviewForm = some nodes ∧
    (foodReviewFinish outcome
        { p with
          foodReviewForm := some (assignSubmitDisabled true nodes)
          fetches := p.fetches ++ [req] }).ratingModalEl = p.ratingModalEl ∧
    (foodReviewFinish outcome
        { p with
          foodReviewForm := some (assignSubmitDisabled true nodes)
          fetches := p.fetches ++ [req] }).modalHides = p.modalHides := by
  have hback := assign_false_true nodes btn hb he
  unfold foodReviewFinish
  cases outcome with
  | rejected => simp [foodReviewCatch, hback]
  | response ok body =>
    cases body with
    | unparsable => simp [foodReviewCatch, hback]
    | null => simp [foodReviewCatch, hback]
    | props success message =>
      simp only [reviewSucceeds] at h
      simp [h, hback]

/-- C7. When a review submission that reached the network ends in a server-reported failure
(`success` falsy) the handler alerts the server's message if it is truthy (for a string:
non-empty) and "Failed to submit reviews" otherwise; when it ends in a transport failure
(`fetch` rejects or the body is not JSON) it alerts "Error submitting reviews". Either way
the page ends as it was before the submit event but for the alert, the logged request and
the console line: the submit button is enabled again, no row control is disabled and the
rated flag is unchanged. -/
theorem review_failure_recovers (p p1 : Page) (req : Request)
    (hs : foodReviewStart p = (p1, some req)) :
    (∀ (ok : Bool) (success message : JsVal), success.truthy = false →
      foodReviewFinish (.response ok (.props success message)) p1
        = { p with
            fetches := p.fetches ++ [req]
            alerts := p.alerts ++ [message.or (.str "Failed to submit reviews")] }) ∧
    (∀ m : String, m ≠ "" → (JsVal.str m).or (.str "Failed to submit reviews") = .str m) ∧
    (∀ message : JsVal, message.truthy = false →
      message.or (.str "Failed to submit reviews") = .str "Failed to submit reviews") ∧
    (∀ outcome : FetchOutcome,
      (outcome = .rejected ∨ ∃ ok, outcome = .response ok .unparsable) →
      foodReviewFinish outcome p1
        = { p with
            fetches := p.fetches ++ [req]
            alerts := p.alerts ++ [.str "Error submitting reviews"]
            consoleErrors := p.consoleErrors ++ ["Error submitting reviews:"] }) ∧
    (∀ outcome : FetchOutcome, reviewSucceeds outcome = false →
      (foodReviewFinish outcome p1).foodReviewForm = p.foodReviewForm ∧
      ((foodReviewFinish outcome p1).foodReviewForm.bind querySubmitBtn).map
          (fun b => b.disabled) = some false ∧
      (foodReviewFinish outcome p1).ratingModalEl = p.ratingModalEl ∧
      (foodReviewFinish outcome p1).modalHides = p.modalHides) := by
  obtain ⟨nodes, btn, hf, hb, he, hp1⟩ := foodReviewStart_request p p1 req hs
  have hback := assign_false_true nodes btn hb he
  refine ⟨?_, ?_, ?_, ?_, ?_⟩
  · intro ok success message hfalse
    rw [hp1]
    unfold foodReviewFinish
    simp only [hfalse, Bool.false_eq_true, if_false, Option.map_some', hback]
    cases p
    simp only at hf
    simp [hf]
  · intro m hm
    simp [JsVal.or, JsVal.truthy, hm]
  · intro message hm
    simp [JsVal.or, hm]
  · intro outcome ho
    rw [hp1]
    have hcatch : foodReviewCatch
        { p with
          foodReviewForm := some (assignSubmitDisabled true nodes)
          fetches := p.fetches ++ [req] }
        = { p with
            fetches := p.fetches ++ [req]
            alerts := p.alerts ++ [.str "Error submitting reviews"]
            consoleErrors := p.consoleErrors ++ ["Error submitting reviews:"] } := by
      unfold foodReviewCatch
      simp only [Option.map_some', hback]
      cases p
      simp only at hf
      simp [hf]
    rcases ho with ho | ⟨ok, ho⟩
    · rw [ho]
      exact hcatch
    · rw [ho]
      exact hcatch
  · intro outcome hno
    rw [hp1]
    obtain ⟨h1, h2, h3⟩ := foodReviewFinish_not_success p nodes btn req outcome hb he hno
    refine ⟨by rw [h1, hf], ?_, h2, h3⟩
    rw [h1]
    simp [hb, he]

/-- The sample batch answered `{success: false, message: "Kitchen closed"}`. -/
theorem review_failure_recovers_witness :
    foodReviewStart samplePage = ((foodReviewStart samplePage).1, some sampleReviewRequest) ∧
    foodReviewFinish (.response true (.props (.bool false) (.str "Kitchen closed")))
        (foodReviewStart samplePage).1
      = { samplePage with
          fetches := samplePage.fetches ++ [sampleReviewRequest]
          alerts := samplePage.alerts
            ++ [(JsVal.str "Kitchen closed").or (.str "Failed to submit reviews")] } ∧
    (JsVal.str "Kitchen closed").or (.str "Failed to submit reviews") = .str "Kitchen closed" :=
  ⟨by decide,
    (review_failure_recovers samplePage (foodReviewStart samplePage).1 sampleReviewRequest
      (by decide)).1 true (.bool false) (.str "Kitchen closed") rfl,
    by decide⟩

/-! ## Which runs leave a form submittable -/

/-- C10, amended. A rating submission with a selected rating of value `v`, review text `t`
and order number `o` makes exactly one request when `getCookie('csrftoken')` returns: a POST
to `/orders/o/rate/` with the two fields `rating = v` and `review = trim(t)` (empty without a
review textarea) and the header `X-CSRFToken` set to the cookie helper's result. When the
cookie helper throws (the cookie value is not valid percent-encoding) no request is made and
the generic error is alerted. -/
theorem rating_request_shape (p : Page) (form : List Control) (selected : Control)
    (o : String) (outcome : FetchOutcome)
    (hf : p.orderRatingForm = some form)
    (hr : form.find? isCheckedRating = some selected)
    (ho : p.orderNumber = some o) :
    (∀ token, getCookie p.cookie "csrftoken" = .ok token →
      orderRatingStart p
        = ({ p with
              fetches := p.fetches ++
                [{ url := "/orders/" ++ o ++ "/rate/"
                   method := "POST"
                   headers := [("X-CSRFToken", token)]
                   body := .formData
                     [("rating", selected.value),
                      ("review", ((form.find? isReviewTextarea).map
                          (fun el => trim el.value)).getD "")] }] },
            some
              { url := "/orders/" ++ o ++ "/rate/"
                method := "POST"
                headers := [("X-CSRFToken", token)]
                body := .formData
                  [("rating", selected.value),
                   ("review", ((form.find? isReviewTextarea).map
                       (fun el => trim el.value)).getD "")] }) ∧
      (orderRatingSubmit outcome p).fetches
        = p.fetches ++
            [{ url := "/orders/" ++ o ++ "/rate/"
               method := "POST"
               headers := [("X-CSRFToken", token)]
               body := .formData
                 [("rating", selected.value),
                  ("review", ((form.find? isReviewTextarea).map
                      (fun el => trim el.value)).getD "")] }]) ∧
    (∀ e, getCookie p.cookie "csrftoken" = .error e →
      orderRatingSubmit outcome p = orderRatingCatch p ∧
      (orderRatingSubmit outcome p).fetches = p.fetches) := by
  constructor
  · intro token hc
    have hstart : orderRatingStart p
        = ({ p with
              fetches := p.fetches ++
                [{ url := "/orders/" ++ o ++ "/rate/"
                   method := "POST"
                   headers := [("X-CSRFToken", token)]
                   body := .formData
                     [("rating", selected.value),
                      ("review", ((form.find? isReviewTextarea).map
                          (fun el => trim el.value)).getD "")] }] },
            some
              { url := "/orders/" ++ o ++ "/rate/"
                method := "POST"
                headers := [("X-CSRFToken", token)]
                body := .formData
                  [("rating", selected.value),
                   ("review", ((form.find? isReviewTextarea).map
                       (fun el => trim el.value)).getD "")] }) := by
      unfold orderRatingStart
      simp only [hf, hr, hc, ho, spliced]
      cases form.find? isReviewTextarea <;> rfl
    refine ⟨hstart, ?_⟩
    unfold orderRatingSubmit
    rw [hstart]
    simp only
    rw [orderRatingFinish_fetches]
  · intro e hc
    have hstart : orderRatingStart p = (orderRatingCatch p, none) := by
      unfold orderRatingStart
      simp only [hf, hr, hc]
    have hsub : orderRatingSubmit outcome p = orderRatingCatch p := by
      unfold orderRatingSubmit
      rw [hstart]
    exact ⟨hsub, by rw [hsub]; rfl⟩

/-- The scenario of order 1024: rating 4, review "Great service". -/
theorem rating_request_shape_witness :
    sampleRatingForm.find? isCheckedRating = some (radio "rating" "4" true) ∧
    getCookie samplePage.cookie "csrftoken" = .ok (some "tok+1") ∧
    (orderRatingSubmit (.response true (.props (.bool true) .undefined)) samplePage).fetches
      = samplePage.fetches ++
          [{ url := "/orders/" ++ "1024" ++ "/rate/"
             method := "POST"
             headers := [("X-CSRFToken", some "tok+1")]
             body := .formData
               [("rating", (radio "rating" "4" true).value),
                ("review", ((sampleRatingForm.find? isReviewTextarea).map
                    (fun el => trim el.value)).getD "")] }] ∧
    (sampleRatingForm.find? isReviewTextarea).map (fun el => trim el.value)
      = some "Great service" :=
  ⟨by decide, by decide,
    ((rating_request_shape samplePage sampleRatingForm (radio "rating" "4" true) "1024"
      (.response true (.props (.bool true) .undefined)) rfl (by decide) rfl).1
        (some "tok+1") (by decide)).2,
    by decide⟩

/-- C10 fails as stated: with the cookie `csrftoken=%` the cookie helper throws inside the
`try`, so a submission with a selected rating makes no request at all. -/
theorem rating_request_lost_on_bad_cookie :
    getCookie "csrftoken=%" "csrftoken" = .error .uriError ∧
    sampleRatingForm.find? isCheckedRating = some (radio "rating" "4" true) ∧
    (orderRatingSubmit (.response true (.props (.bool true) .undefined))
        { samplePage with cookie := "csrftoken=%" }).fetches = [] ∧
    (orderRatingSubmit (.response true (.props (.bool true) .undefined))
        { samplePage with cookie := "csrftoken=%" }).alerts
      = [.str "Error submitting order rating"] := by
  decide

end OrderDetail
